import Mathlib

/-!
Shallow embedding of the resource-lifecycle orchestrator in `src/main.go`
(`skipIfAlreadyExists`, `waitForActive`, `waitForDeleted`, and the
create-then-wait-active stage pattern), together with theorems settling the
claims about it.

The two waiters are `select` loops: on each iteration either the one-minute
ticker fires (and the poll function is invoked) or the caller's context is
cancelled.  We embed each run as a finite list of events, one per loop
iteration: `tick r` carries the poll function's result for that iteration,
`cancel` is the `ctx.Done()` branch.  The waiter either terminates with an
outcome (`some o`) or consumes the whole event list while still polling
(`none`).  Go's `*string` status is `Option String` (`none` is a nil
pointer), and dereferencing a nil status is made explicit as the `nilDeref`
outcome.  Go's `(value, error)` returns become `Except GoErr String`, with
error kinds for the two `errors.As` type checks the code performs.
-/

/-- Error kinds distinguished by `errors.As` in the source:
`types.ResourceAlreadyExistsException`, `types.ResourceNotFoundException`,
and everything else. -/
inductive ErrKind where
  | alreadyExists
  | notFound
  | generic
deriving DecidableEq

/-- A Go error value: its dynamic kind (what `errors.As` matches) and its
message. -/
structure GoErr where
  kind : ErrKind
  msg : String
deriving DecidableEq

/-- Result of one call of a `waitForActive` poll function
`func() (*string, *int64, error)`: status pointer, estimated remaining
minutes pointer, error. -/
structure PollResult where
  status : Option String
  remainingMin : Option Int
  err : Option GoErr
deriving DecidableEq

/-- Result of one call of a `waitForDeleted` poll function
`func() (*string, error)`. -/
structure DelPollResult where
  status : Option String
  err : Option GoErr
deriving DecidableEq

/-- One iteration of the `waitForActive` select loop: the ticker fired and
the poll returned `r`, or the context was cancelled. -/
inductive WaitEvent where
  | tick (r : PollResult)
  | cancel
deriving DecidableEq

/-- One iteration of the `waitForDeleted` select loop. -/
inductive DelEvent where
  | tick (r : DelPollResult)
  | cancel
deriving DecidableEq

/-- How a `waitForActive` run ends. `success` is `return nil`; `pollError e`
is `return err`; `unexpectedState n s` is the
`fmt.Errorf("%s is not creating but %s", ...)` return; `provisioningFailed`
is `errors.New("creating is failed")`; `nilDeref` is the Go panic from
reading `*status` when the poll returned a nil status pointer. -/
inductive ActiveOutcome where
  | success
  | pollError (e : GoErr)
  | unexpectedState (name status : String)
  | provisioningFailed
  | nilDeref
deriving DecidableEq

/-- How a `waitForDeleted` run ends. `deletionFailed` is
`errors.New("deleting is failed")`. -/
inductive DeleteOutcome where
  | success
  | pollError (e : GoErr)
  | unexpectedState (name status : String)
  | deletionFailed
  | nilDeref
deriving DecidableEq

/-- Model of Go's `strings.HasPrefix s p` as character-list prefix (UTF-8
encoding preserves the prefix relation character-wise, and every status
token involved is ASCII). -/
def goStartsWith (s p : String) : Bool := p.data.isPrefixOf s.data

/-- Body of one ticker iteration of `waitForActive` (src/main.go lines
126-139): error check first, then `*status == "ACTIVE"`, then
`!strings.HasPrefix(*status, "CREATE")`, then `*status == "CREATE_FAILED"`,
otherwise keep polling (`none`). -/
def activeStep (name : String) (r : PollResult) : Option ActiveOutcome :=
  match r.err with
  | some e => some (ActiveOutcome.pollError e)
  | none =>
    match r.status with
    | none => some ActiveOutcome.nilDeref
    | some s =>
      if s = "ACTIVE" then some ActiveOutcome.success
      else if ¬ goStartsWith s "CREATE" then some (ActiveOutcome.unexpectedState name s)
      else if s = "CREATE_FAILED" then some ActiveOutcome.provisioningFailed
      else none

/-- `waitForActive` (src/main.go lines 120-144) over a finite event trace.
`some o` means the loop returned with outcome `o`; `none` means the trace
ended with the waiter still polling.  A `cancel` event is the `ctx.Done()`
branch, which is `return nil`, i.e. success. -/
def waitForActive (name : String) : List WaitEvent → Option ActiveOutcome
  | [] => none
  | WaitEvent.cancel :: _ => some ActiveOutcome.success
  | WaitEvent.tick r :: rest =>
    match activeStep name r with
    | some o => some o
    | none => waitForActive name rest

/-- Body of one ticker iteration of `waitForDeleted` (src/main.go lines
333-346): a `ResourceNotFoundException` poll error is success, any other
poll error propagates, then `!strings.HasPrefix(*status, "DELETE")`, then
the literal comparison `*status == "DELTE_FAILED"` exactly as (mis)spelled
in the source, otherwise keep polling. -/
def deletedStep (name : String) (r : DelPollResult) : Option DeleteOutcome :=
  match r.err with
  | some e =>
    if e.kind = ErrKind.notFound then some DeleteOutcome.success
    else some (DeleteOutcome.pollError e)
  | none =>
    match r.status with
    | none => some DeleteOutcome.nilDeref
    | some s =>
      if ¬ goStartsWith s "DELETE" then some (DeleteOutcome.unexpectedState name s)
      else if s = "DELTE_FAILED" then some DeleteOutcome.deletionFailed
      else none

/-- `waitForDeleted` (src/main.go lines 327-351) over a finite event trace;
same conventions as `waitForActive`. -/
def waitForDeleted (name : String) : List DelEvent → Option DeleteOutcome
  | [] => none
  | DelEvent.cancel :: _ => some DeleteOutcome.success
  | DelEvent.tick r :: rest =>
    match deletedStep name r with
    | some o => some o
    | none => waitForDeleted name rest

/-- `skipIfAlreadyExists` (src/main.go lines 107-118): run the create
function; on a `ResourceAlreadyExistsException` synthesize
`arn:aws:forecast:<region>:<account>:<resource>/<name>`; any other error is
returned unchanged. -/
def skipIfAlreadyExists (region account resource name : String)
    (h : Except GoErr String) : Except GoErr String :=
  match h with
  | Except.ok arn => Except.ok arn
  | Except.error e =>
    if e.kind = ErrKind.alreadyExists then
      Except.ok ("arn:aws:forecast:" ++ region ++ ":" ++ account ++ ":" ++ resource ++ "/" ++ name)
    else Except.error e

/-- Result of a create-then-wait-active pipeline stage: the returned handle,
the create-side error, or the waiter's failing outcome. -/
inductive StageResult where
  | ok (arn : String)
  | createFailed (e : GoErr)
  | waitFailed (o : ActiveOutcome)
deriving DecidableEq

/-- The create-then-wait-active stage pattern shared by
`CreateDatasetImportJob`, `CreatePredictor` and `CreateForecast`
(e.g. src/main.go lines 224-264): propagate a create error, run
`waitForActive`, propagate its error via `if err := ...; err != nil`,
otherwise return the handle.  `none` means the waiter was still polling. -/
def createThenWaitActive (region account resource name waitName : String)
    (createRes : Except GoErr String) (events : List WaitEvent) :
    Option StageResult :=
  match skipIfAlreadyExists region account resource name createRes with
  | Except.error e => some (StageResult.createFailed e)
  | Except.ok arn =>
    match waitForActive waitName events with
    | none => none
    | some ActiveOutcome.success => some (StageResult.ok arn)
    | some o => some (StageResult.waitFailed o)

/-- `CreateForecastExportJob` (src/main.go lines 295-325).  Its wait step is
written `if f.waitForActive(...); err != nil { return nil, err }`: the
waiter's return value is an init-statement expression, not bound to `err`,
so the condition tests the stale outer `err` (already known nil) and the
waiter's outcome is discarded — the stage returns the handle whatever the
waiter returned. -/
def CreateForecastExportJob (region account forecastName name : String)
    (createRes : Except GoErr String) (events : List WaitEvent) :
    Option StageResult :=
  match skipIfAlreadyExists region account ("forecast-export-job/" ++ forecastName) name createRes with
  | Except.error e => some (StageResult.createFailed e)
  | Except.ok arn =>
    match waitForActive "forecast-export-job" events with
    | none => none
    | some _ => some (StageResult.ok arn)

/-- An event on which `waitForActive` stays in the polling state. -/
def isPollingTick (name : String) : WaitEvent → Bool
  | WaitEvent.tick r => activeStep name r = none
  | WaitEvent.cancel => false

/-- An event on which `waitForDeleted` stays in the polling state. -/
def isDelPollingTick (name : String) : DelEvent → Bool
  | DelEvent.tick r => deletedStep name r = none
  | DelEvent.cancel => false

/-- Spec-side (section 8 of the spec): a poll result that reports progress —
no error, a status that starts with the in-progress token "CREATE" and is
neither the terminal success nor the terminal failure token. -/
def goodProgress (r : PollResult) : Bool :=
  r.err = none &&
    match r.status with
    | some s => goStartsWith s "CREATE" && s ≠ "CREATE_FAILED" && s ≠ "ACTIVE"
    | none => false

/-- Spec-side: a poll result that reports the terminal success status. -/
def reportsActive (r : PollResult) : Bool :=
  r.err = none && r.status = some "ACTIVE"

/-- Spec-side ("Active-wait terminates successfully if and only if the poll
sequence eventually reports ACTIVE"): the sequence eventually reports
"ACTIVE", every earlier poll being an in-progress report with no error, no
terminal failure and no unexpected status. -/
def specEventuallyActive : List PollResult → Bool
  | [] => false
  | r :: rest => reportsActive r || (goodProgress r && specEventuallyActive rest)

/-- A `waitForActive` poll result whose status pointer is non-nil whenever
its error is nil (the precondition under which the unguarded `*status` read
is safe). -/
def tickStatusOk : WaitEvent → Bool
  | WaitEvent.tick r => r.err ≠ none || r.status ≠ none
  | WaitEvent.cancel => true

/-- A `waitForDeleted` poll result whose status pointer is non-nil whenever
its error is nil. -/
def delTickStatusOk : DelEvent → Bool
  | DelEvent.tick r => r.err ≠ none || r.status ≠ none
  | DelEvent.cancel => true

theorem waitForActive_append_polling (name : String) (pre rest : List WaitEvent)
    (h : pre.all (isPollingTick name) = true) :
    waitForActive name (pre ++ rest) = waitForActive name rest := by
  induction pre with
  | nil => rfl
  | cons ev pre ih =>
    simp only [List.all_cons, Bool.and_eq_true] at h
    cases ev with
    | cancel => simp [isPollingTick] at h
    | tick r =>
      have hstep : activeStep name r = none := by
        simpa [isPollingTick] using h.1
      simpa [waitForActive, hstep] using ih h.2

theorem waitForDeleted_append_polling (name : String) (pre rest : List DelEvent)
    (h : pre.all (isDelPollingTick name) = true) :
    waitForDeleted name (pre ++ rest) = waitForDeleted name rest := by
  induction pre with
  | nil => rfl
  | cons ev pre ih =>
    simp only [List.all_cons, Bool.and_eq_true] at h
    cases ev with
    | cancel => simp [isDelPollingTick] at h
    | tick r =>
      have hstep : deletedStep name r = none := by
        simpa [isDelPollingTick] using h.1
      simpa [waitForDeleted, hstep] using ih h.2

theorem deletedStep_ne_deletionFailed (name : String) (r : DelPollResult) :
    deletedStep name r ≠ some DeleteOutcome.deletionFailed := by
  obtain ⟨st, er⟩ := r
  cases er with
  | some e =>
    by_cases hk : e.kind = ErrKind.notFound <;> simp [deletedStep, hk]
  | none =>
    cases st with
    | none => simp [deletedStep]
    | some s =>
      by_cases h2 : s = "DELTE_FAILED"
      · subst h2
        simp [deletedStep, show goStartsWith "DELTE_FAILED" "DELETE" = false from by decide]
      · by_cases h1 : goStartsWith s "DELETE" = true <;> simp [deletedStep, h1, h2]

/-- C1: the claim fails on the code.  A poll reporting status
"DELETE_FAILED" passes the "DELETE"-prefix check but the failure branch
compares the status against the misspelled token "DELTE_FAILED"
(src/main.go line 343), so the waiter logs and keeps polling; moreover the
DeletionFailed outcome is unreachable on every trace, since any status equal
to "DELTE_FAILED" already fails the prefix check. -/
theorem waitForDeleted_deletionFailed_unreachable :
    waitForDeleted "forecast" [DelEvent.tick ⟨some "DELETE_FAILED", none⟩] = none
    ∧ ∀ (name : String) (events : List DelEvent),
        waitForDeleted name events ≠ some DeleteOutcome.deletionFailed := by
  refine ⟨by decide, ?_⟩
  intro name events
  induction events with
  | nil => simp [waitForDeleted]
  | cons ev rest ih =>
    cases ev with
    | cancel => simp [waitForDeleted]
    | tick r =>
      cases h : deletedStep name r with
      | none => simpa [waitForDeleted, h] using ih
      | some o =>
        simp only [waitForDeleted, h]
        intro hcontra
        exact deletedStep_ne_deletionFailed name r (h.trans hcontra)

/-- C2: the claim fails on the code.  In `CreateForecastExportJob` the wait
step is `if f.waitForActive(...); err != nil` (src/main.go line 313): the
waiter's result is not bound to `err`, the stale nil `err` is tested, and a
failing wait is discarded — the stage returns the handle with no error,
unlike the shared create-then-wait pattern which returns the failure. -/
theorem CreateForecastExportJob_discards_wait_failure :
    waitForActive "forecast-export-job"
        [WaitEvent.tick ⟨some "CREATE_FAILED", none, none⟩]
      = some ActiveOutcome.provisioningFailed
    ∧ CreateForecastExportJob "us-east-1" "111122223333"
        "electricityusagedata_forecast" "export_electricityusagedata_forecast"
        (Except.ok "arnX") [WaitEvent.tick ⟨some "CREATE_FAILED", none, none⟩]
      = some (StageResult.ok "arnX")
    ∧ createThenWaitActive "us-east-1" "111122223333" "predictor"
        "electricityusagedata_predictor" "predictor" (Except.ok "arnX")
        [WaitEvent.tick ⟨some "CREATE_FAILED", none, none⟩]
      = some (StageResult.waitFailed ActiveOutcome.provisioningFailed) :=
  ⟨by decide, by decide, by decide⟩

/-- C3: if the context is cancelled while either waiter is still polling,
the waiter returns success (`return nil` in the `ctx.Done()` branch), not a
cancellation error. -/
theorem waiters_cancel_returns_success (name : String)
    (pre rest : List WaitEvent) (dpre drest : List DelEvent)
    (h1 : pre.all (isPollingTick name) = true)
    (h2 : dpre.all (isDelPollingTick name) = true) :
    waitForActive name (pre ++ WaitEvent.cancel :: rest)
      = some ActiveOutcome.success
    ∧ waitForDeleted name (dpre ++ DelEvent.cancel :: drest)
      = some DeleteOutcome.success := by
  constructor
  · rw [waitForActive_append_polling name pre _ h1]; rfl
  · rw [waitForDeleted_append_polling name dpre _ h2]; rfl

/-- Witness for the cancellation theorem: one in-progress poll, then
cancellation, in each waiter. -/
theorem waiters_cancel_returns_success_witness :
    ([WaitEvent.tick ⟨some "CREATE_IN_PROGRESS", none, none⟩].all
        (isPollingTick "predictor") = true)
    ∧ ([DelEvent.tick ⟨some "DELETE_IN_PROGRESS", none⟩].all
        (isDelPollingTick "predictor") = true)
    ∧ waitForActive "predictor"
        ([WaitEvent.tick ⟨some "CREATE_IN_PROGRESS", none, none⟩]
          ++ WaitEvent.cancel :: []) = some ActiveOutcome.success
    ∧ waitForDeleted "predictor"
        ([DelEvent.tick ⟨some "DELETE_IN_PROGRESS", none⟩]
          ++ DelEvent.cancel :: []) = some DeleteOutcome.success := by
  refine ⟨by decide, by decide, ?_, ?_⟩
  · exact (waiters_cancel_returns_success "predictor"
      [WaitEvent.tick ⟨some "CREATE_IN_PROGRESS", none, none⟩] []
      [DelEvent.tick ⟨some "DELETE_IN_PROGRESS", none⟩] []
      (by decide) (by decide)).1
  · exact (waiters_cancel_returns_success "predictor"
      [WaitEvent.tick ⟨some "CREATE_IN_PROGRESS", none, none⟩] []
      [DelEvent.tick ⟨some "DELETE_IN_PROGRESS", none⟩] []
      (by decide) (by decide)).2

/-- C4: when the create call fails with an already-exists error, the
idempotent creator returns, with no error, the handle built from the
deterministic template `arn:aws:forecast:<region>:<account>:<resource>/<name>`. -/
theorem skipIfAlreadyExists_template (region account resource name : String)
    (e : GoErr) (h : e.kind = ErrKind.alreadyExists) :
    skipIfAlreadyExists region account resource name (Except.error e)
      = Except.ok ("arn:aws:forecast:" ++ region ++ ":" ++ account ++ ":"
          ++ resource ++ "/" ++ name) := by
  simp [skipIfAlreadyExists, h]

/-- Witness: the claim's concrete scenario — resource "dataset", name "d1",
account 111122223333, region us-east-1 yields exactly
`arn:aws:forecast:us-east-1:111122223333:dataset/d1`. -/
theorem skipIfAlreadyExists_template_witness :
    (GoErr.mk ErrKind.alreadyExists "already exists").kind
        = ErrKind.alreadyExists
    ∧ skipIfAlreadyExists "us-east-1" "111122223333" "dataset" "d1"
        (Except.error ⟨ErrKind.alreadyExists, "already exists"⟩)
      = Except.ok "arn:aws:forecast:us-east-1:111122223333:dataset/d1" := by
  refine ⟨rfl, ?_⟩
  exact skipIfAlreadyExists_template "us-east-1" "111122223333" "dataset" "d1"
    ⟨ErrKind.alreadyExists, "already exists"⟩ rfl

theorem activeStep_success_iff (name : String) (r : PollResult) :
    activeStep name r = some ActiveOutcome.success ↔ reportsActive r = true := by
  obtain ⟨st, rem, er⟩ := r
  cases er with
  | some e => simp [activeStep, reportsActive]
  | none =>
    cases st with
    | none => simp [activeStep, reportsActive]
    | some s =>
      by_cases hA : s = "ACTIVE"
      · subst hA; simp [activeStep, reportsActive]
      · by_cases hC : goStartsWith s "CREATE" = true
        · by_cases hF : s = "CREATE_FAILED" <;>
            simp [activeStep, reportsActive, hA, hC, hF,
              show goStartsWith "CREATE_FAILED" "CREATE" = true from by decide]
        · simp [activeStep, reportsActive, hA, hC]

theorem activeStep_none_iff (name : String) (r : PollResult) :
    activeStep name r = none ↔ goodProgress r = true := by
  obtain ⟨st, rem, er⟩ := r
  cases er with
  | some e => simp [activeStep, goodProgress]
  | none =>
    cases st with
    | none => simp [activeStep, goodProgress]
    | some s =>
      by_cases hA : s = "ACTIVE"
      · subst hA; simp [activeStep, goodProgress]
      · by_cases hC : goStartsWith s "CREATE" = true
        · by_cases hF : s = "CREATE_FAILED" <;>
            simp [activeStep, goodProgress, hA, hC, hF,
              show goStartsWith "CREATE_FAILED" "CREATE" = true from by decide]
        · simp [activeStep, goodProgress, hA, hC]

/-- C5: over a pure poll trace the active waiter returns success exactly
when the poll sequence eventually reports "ACTIVE" with every earlier poll
an error-free in-progress report; on the scenario trace
[CREATE_PENDING, CREATE_IN_PROGRESS, ACTIVE] it succeeds on the third tick,
and is still polling after the first two. -/
theorem waitForActive_success_iff_eventually_active :
    (∀ (name : String) (polls : List PollResult),
        waitForActive name (polls.map WaitEvent.tick)
            = some ActiveOutcome.success
          ↔ specEventuallyActive polls = true)
    ∧ waitForActive "dataset" (List.map WaitEvent.tick
        [⟨some "CREATE_PENDING", none, none⟩,
         ⟨some "CREATE_IN_PROGRESS", none, none⟩,
         ⟨some "ACTIVE", none, none⟩]) = some ActiveOutcome.success
    ∧ waitForActive "dataset" (List.map WaitEvent.tick
        [⟨some "CREATE_PENDING", none, none⟩,
         ⟨some "CREATE_IN_PROGRESS", none, none⟩]) = none := by
  refine ⟨?_, by decide, by decide⟩
  intro name polls
  induction polls with
  | nil => simp [waitForActive, specEventuallyActive]
  | cons r rest ih =>
    simp only [List.map_cons, specEventuallyActive]
    cases h : activeStep name r with
    | none =>
      have hg : goodProgress r = true := (activeStep_none_iff name r).mp h
      have hr : reportsActive r = false := by
        cases hx : reportsActive r
        · rfl
        · have := (activeStep_success_iff name r).mpr hx
          rw [h] at this
          exact Option.noConfusion this
      simpa [waitForActive, h, hg, hr] using ih
    | some o =>
      have hg : goodProgress r = false := by
        cases hx : goodProgress r
        · rfl
        · have := (activeStep_none_iff name r).mpr hx
          rw [h] at this
          exact Option.noConfusion this
      by_cases ho : o = ActiveOutcome.success
      · subst ho
        have hr : reportsActive r = true := (activeStep_success_iff name r).mp h
        simp [waitForActive, h, hr]
      · have hr : reportsActive r = false := by
          cases hx : reportsActive r
          · rfl
          · have := (activeStep_success_iff name r).mpr hx
            rw [h] at this
            exact absurd (Option.some.inj this) ho
        simp [waitForActive, h, hr, hg, ho]

/-- C6: a poll reporting status exactly "CREATE_FAILED", after any number of
in-progress polls, makes the active waiter fail with the ProvisioningFailed
error ("creating is failed"). -/
theorem waitForActive_create_failed (name : String) (pre rest : List WaitEvent)
    (r : PollResult) (hpre : pre.all (isPollingTick name) = true)
    (herr : r.err = none) (hst : r.status = some "CREATE_FAILED") :
    waitForActive name (pre ++ WaitEvent.tick r :: rest)
      = some ActiveOutcome.provisioningFailed := by
  rw [waitForActive_append_polling name pre _ hpre]
  have hstep : activeStep name r = some ActiveOutcome.provisioningFailed := by
    simp [activeStep, herr, hst,
      show goStartsWith "CREATE_FAILED" "CREATE" = true from by decide]
  simp [waitForActive, hstep]

/-- Witness: one in-progress poll, then a CREATE_FAILED poll. -/
theorem waitForActive_create_failed_witness :
    ([WaitEvent.tick ⟨some "CREATE_PENDING", none, none⟩].all
        (isPollingTick "predictor") = true)
    ∧ (⟨some "CREATE_FAILED", none, none⟩ : PollResult).err = none
    ∧ (⟨some "CREATE_FAILED", none, none⟩ : PollResult).status
        = some "CREATE_FAILED"
    ∧ waitForActive "predictor"
        ([WaitEvent.tick ⟨some "CREATE_PENDING", none, none⟩]
          ++ WaitEvent.tick ⟨some "CREATE_FAILED", none, none⟩ :: [])
      = some ActiveOutcome.provisioningFailed := by
  refine ⟨by decide, rfl, rfl, ?_⟩
  exact waitForActive_create_failed "predictor"
    [WaitEvent.tick ⟨some "CREATE_PENDING", none, none⟩] []
    ⟨some "CREATE_FAILED", none, none⟩ (by decide) rfl rfl

/-- C7: a poll reporting a status that is neither "ACTIVE" nor prefixed with
"CREATE", after any number of in-progress polls, makes the active waiter
fail with the UnexpectedState error ("<name> is not creating but <status>"). -/
theorem waitForActive_unexpected_state (name : String)
    (pre rest : List WaitEvent) (r : PollResult) (s : String)
    (hpre : pre.all (isPollingTick name) = true)
    (herr : r.err = none) (hst : r.status = some s)
    (hA : s ≠ "ACTIVE") (hC : goStartsWith s "CREATE" = false) :
    waitForActive name (pre ++ WaitEvent.tick r :: rest)
      = some (ActiveOutcome.unexpectedState name s) := by
  rw [waitForActive_append_polling name pre _ hpre]
  have hstep : activeStep name r
      = some (ActiveOutcome.unexpectedState name s) := by
    simp [activeStep, herr, hst, hA, hC]
  simp [waitForActive, hstep]

/-- Witness: the claim's scenario — the status "SUSPENDED" observed on the
first poll. -/
theorem waitForActive_unexpected_state_witness :
    (([] : List WaitEvent).all (isPollingTick "dataset") = true)
    ∧ (⟨some "SUSPENDED", none, none⟩ : PollResult).err = none
    ∧ (⟨some "SUSPENDED", none, none⟩ : PollResult).status = some "SUSPENDED"
    ∧ ("SUSPENDED" : String) ≠ "ACTIVE"
    ∧ goStartsWith "SUSPENDED" "CREATE" = false
    ∧ waitForActive "dataset"
        ([] ++ WaitEvent.tick ⟨some "SUSPENDED", none, none⟩ :: [])
      = some (ActiveOutcome.unexpectedState "dataset" "SUSPENDED") := by
  refine ⟨by decide, rfl, rfl, by decide, by decide, ?_⟩
  exact waitForActive_unexpected_state "dataset" [] []
    ⟨some "SUSPENDED", none, none⟩ "SUSPENDED" (by decide) rfl rfl
    (by decide) (by decide)

/-- C8: a delete-wait poll failing with a not-found error — at any point,
including the very first poll — makes the waiter return success at once;
the events after that poll are irrelevant (quantified `rest` is never
examined). -/
theorem waitForDeleted_notFound_success (name : String)
    (pre rest : List DelEvent) (r : DelPollResult) (e : GoErr)
    (hpre : pre.all (isDelPollingTick name) = true)
    (herr : r.err = some e) (hk : e.kind = ErrKind.notFound) :
    waitForDeleted name (pre ++ DelEvent.tick r :: rest)
      = some DeleteOutcome.success := by
  rw [waitForDeleted_append_polling name pre _ hpre]
  have hstep : deletedStep name r = some DeleteOutcome.success := by
    simp [deletedStep, herr, hk]
  simp [waitForDeleted, hstep]

/-- Witness: the not-found error arrives on the very first poll; a further
pending event after it is never reached. -/
theorem waitForDeleted_notFound_success_witness :
    (([] : List DelEvent).all (isDelPollingTick "forecast") = true)
    ∧ (⟨none, some ⟨ErrKind.notFound, "not found"⟩⟩ : DelPollResult).err
        = some ⟨ErrKind.notFound, "not found"⟩
    ∧ (GoErr.mk ErrKind.notFound "not found").kind = ErrKind.notFound
    ∧ waitForDeleted "forecast"
        ([] ++ DelEvent.tick ⟨none, some ⟨ErrKind.notFound, "not found"⟩⟩
          :: [DelEvent.tick ⟨some "DELETE_IN_PROGRESS", none⟩])
      = some DeleteOutcome.success := by
  refine ⟨by decide, rfl, rfl, ?_⟩
  exact waitForDeleted_notFound_success "forecast" []
    [DelEvent.tick ⟨some "DELETE_IN_PROGRESS", none⟩]
    ⟨none, some ⟨ErrKind.notFound, "not found"⟩⟩
    ⟨ErrKind.notFound, "not found"⟩ (by decide) rfl rfl

/-- C9: nothing is recovered except already-exists during create and
not-found during delete-wait: any other create error is returned unchanged
by the idempotent creator, and any other poll error is returned unchanged by
the waiter on the tick where it occurs, with no retry. -/
theorem errors_propagate_unchanged :
    (∀ (region account resource name : String) (e : GoErr),
        e.kind ≠ ErrKind.alreadyExists →
        skipIfAlreadyExists region account resource name (Except.error e)
          = Except.error e)
    ∧ (∀ (name : String) (pre rest : List WaitEvent) (r : PollResult)
          (e : GoErr),
        pre.all (isPollingTick name) = true → r.err = some e →
        waitForActive name (pre ++ WaitEvent.tick r :: rest)
          = some (ActiveOutcome.pollError e))
    ∧ (∀ (name : String) (pre rest : List DelEvent) (r : DelPollResult)
          (e : GoErr),
        pre.all (isDelPollingTick name) = true → r.err = some e →
        e.kind ≠ ErrKind.notFound →
        waitForDeleted name (pre ++ DelEvent.tick r :: rest)
          = some (DeleteOutcome.pollError e)) := by
  refine ⟨?_, ?_, ?_⟩
  · intro region account resource name e h
    simp [skipIfAlreadyExists, h]
  · intro name pre rest r e hpre herr
    rw [waitForActive_append_polling name pre _ hpre]
    simp [waitForActive, activeStep, herr]
  · intro name pre rest r e hpre herr hk
    rw [waitForDeleted_append_polling name pre _ hpre]
    simp [waitForDeleted, deletedStep, herr, hk]

/-- Witness: a generic "throttled" error through each of the three paths. -/
theorem errors_propagate_unchanged_witness :
    skipIfAlreadyExists "us-east-1" "111122223333" "dataset" "d1"
        (Except.error ⟨ErrKind.generic, "throttled"⟩)
      = Except.error ⟨ErrKind.generic, "throttled"⟩
    ∧ waitForActive "predictor"
        ([] ++ WaitEvent.tick ⟨none, none, some ⟨ErrKind.generic, "throttled"⟩⟩
          :: []) = some (ActiveOutcome.pollError ⟨ErrKind.generic, "throttled"⟩)
    ∧ waitForDeleted "predictor"
        ([] ++ DelEvent.tick ⟨none, some ⟨ErrKind.generic, "throttled"⟩⟩ :: [])
      = some (DeleteOutcome.pollError ⟨ErrKind.generic, "throttled"⟩) := by
  refine ⟨?_, ?_, ?_⟩
  · exact errors_propagate_unchanged.1 "us-east-1" "111122223333" "dataset"
      "d1" ⟨ErrKind.generic, "throttled"⟩ (by decide)
  · exact errors_propagate_unchanged.2.1 "predictor" [] []
      ⟨none, none, some ⟨ErrKind.generic, "throttled"⟩⟩
      ⟨ErrKind.generic, "throttled"⟩ (by decide) rfl
  · exact errors_propagate_unchanged.2.2 "predictor" [] []
      ⟨none, some ⟨ErrKind.generic, "throttled"⟩⟩
      ⟨ErrKind.generic, "throttled"⟩ (by decide) rfl (by decide)

theorem activeStep_ne_nilDeref_of_statusOk (name : String) (r : PollResult)
    (h : tickStatusOk (WaitEvent.tick r) = true) :
    activeStep name r ≠ some ActiveOutcome.nilDeref := by
  obtain ⟨st, rem, er⟩ := r
  cases er with
  | some e => simp [activeStep]
  | none =>
    cases st with
    | none => simp [tickStatusOk] at h
    | some s =>
      by_cases hA : s = "ACTIVE"
      · simp [activeStep, hA]
      · by_cases hC : goStartsWith s "CREATE" = true
        · by_cases hF : s = "CREATE_FAILED" <;>
            simp [activeStep, hA, hC, hF,
              show goStartsWith "CREATE_FAILED" "CREATE" = true from by decide]
        · simp [activeStep, hA, hC]

theorem deletedStep_ne_nilDeref_of_statusOk (name : String)
    (r : DelPollResult) (h : delTickStatusOk (DelEvent.tick r) = true) :
    deletedStep name r ≠ some DeleteOutcome.nilDeref := by
  obtain ⟨st, er⟩ := r
  cases er with
  | some e =>
    by_cases hk : e.kind = ErrKind.notFound <;> simp [deletedStep, hk]
  | none =>
    cases st with
    | none => simp [delTickStatusOk] at h
    | some s =>
      by_cases hD : goStartsWith s "DELETE" = true
      · by_cases hF : s = "DELTE_FAILED" <;>
          simp [deletedStep, hD, hF,
            show goStartsWith "DELTE_FAILED" "DELETE" = false from by decide]
      · simp [deletedStep, hD]

/-- C10: under the precondition that every poll returns a non-nil status
pointer whenever it returns a nil error, neither waiter reaches the
unguarded `*status` dereference; without the precondition a single
nil-status, nil-error poll drives each waiter straight into it. -/
theorem waiters_nil_deref_guarded :
    (∀ (name : String) (events : List WaitEvent),
        events.all tickStatusOk = true →
        waitForActive name events ≠ some ActiveOutcome.nilDeref)
    ∧ (∀ (name : String) (events : List DelEvent),
        events.all delTickStatusOk = true →
        waitForDeleted name events ≠ some DeleteOutcome.nilDeref)
    ∧ waitForActive "dataset" [WaitEvent.tick ⟨none, none, none⟩]
        = some ActiveOutcome.nilDeref
    ∧ waitForDeleted "dataset" [DelEvent.tick ⟨none, none⟩]
        = some DeleteOutcome.nilDeref := by
  refine ⟨?_, ?_, by decide, by decide⟩
  · intro name events
    induction events with
    | nil => intro _; simp [waitForActive]
    | cons ev rest ih =>
      intro hall
      simp only [List.all_cons, Bool.and_eq_true] at hall
      cases ev with
      | cancel => simp [waitForActive]
      | tick r =>
        cases h : activeStep name r with
        | none => simpa [waitForActive, h] using ih hall.2
        | some o =>
          simp only [waitForActive, h]
          intro hcontra
          exact activeStep_ne_nilDeref_of_statusOk name r hall.1
            (h.trans hcontra)
  · intro name events
    induction events with
    | nil => intro _; simp [waitForDeleted]
    | cons ev rest ih =>
      intro hall
      simp only [List.all_cons, Bool.and_eq_true] at hall
      cases ev with
      | cancel => simp [waitForDeleted]
      | tick r =>
        cases h : deletedStep name r with
        | none => simpa [waitForDeleted, h] using ih hall.2
        | some o =>
          simp only [waitForDeleted, h]
          intro hcontra
          exact deletedStep_ne_nilDeref_of_statusOk name r hall.1
            (h.trans hcontra)

/-- Witness: well-behaved single-poll traces for both waiters. -/
theorem waiters_nil_deref_guarded_witness :
    ([WaitEvent.tick ⟨some "ACTIVE", none, none⟩].all tickStatusOk = true)
    ∧ ([DelEvent.tick ⟨some "DELETE_PENDING", none⟩].all delTickStatusOk
        = true)
    ∧ waitForActive "dataset" [WaitEvent.tick ⟨some "ACTIVE", none, none⟩]
        ≠ some ActiveOutcome.nilDeref
    ∧ waitForDeleted "dataset" [DelEvent.tick ⟨some "DELETE_PENDING", none⟩]
        ≠ some DeleteOutcome.nilDeref := by
  refine ⟨by decide, by decide, ?_, ?_⟩
  · exact waiters_nil_deref_guarded.1 "dataset"
      [WaitEvent.tick ⟨some "ACTIVE", none, none⟩] (by decide)
  · exact waiters_nil_deref_guarded.2.1 "dataset"
      [DelEvent.tick ⟨some "DELETE_PENDING", none⟩] (by decide)
